import Mathlib

/-!
Verification development for the Disk_Usage_Visualizer repository
(single source file `src/main.rs`).

The scan pipeline, the report data model, the view's filter/top-5 logic,
the exporters and the `update` message handler are embedded shallowly:

* `f64` values that the program produces are exact here (byte counts divided
  by the constants 2^20 / 2^30, all far below 2^53), so sizes and capacities
  are modelled as rationals; a separate `F64` type with a NaN constructor is
  used where the question is precisely about NaN (the comparator's unwrap).
* Rust's `Vec::sort_by` is a stable sort, and a stable sort's output is
  uniquely determined by the comparator, so insertion sort is an exact model.
* The filesystem walk and the OS volume enumeration are inputs: a
  `VolumeInput` records what the walk delivers for one volume (the entries
  that stat successfully as regular files, with their byte lengths).
* The opaque pieces of the serializers (serde_json's rendering of numbers and
  string literals, the csv crate's field quoting, Rust's 2-decimal float
  formatting) are parameters of the export model; no claim depends on them.
-/

namespace DiskViz

/-- Embeds `FileInfo` (main.rs:29-33): a path plus `size_mb`, which the
collector computes as `metadata.len() as f64 / 1_048_576.0` (main.rs:120). -/
structure FileInfo where
  path : String
  size_mb : ℚ
  deriving DecidableEq, Inhabited

/-- Embeds `DiskInfo` (main.rs:21-27), serde field order `name`,
`total_space`, `used_space`, `files`. -/
structure DiskInfo where
  name : String
  total_space : ℚ
  used_space : ℚ
  files : List FileInfo
  deriving DecidableEq, Inhabited

/-- The descending-by-size order both sorts in main.rs use: the comparator
`b.size_mb.partial_cmp(&a.size_mb)` (line 128, and line 256 with
`unwrap_or(Equal)`) sorts ascending in the comparator, i.e. descending by
`size_mb`; on the rational model the two comparators coincide. -/
def sizeGe (a b : FileInfo) : Prop := b.size_mb ≤ a.size_mb

instance : DecidableRel sizeGe :=
  fun a b => inferInstanceAs (Decidable (b.size_mb ≤ a.size_mb))

instance : IsTotal FileInfo sizeGe := ⟨fun a b => le_total b.size_mb a.size_mb⟩

instance : IsTrans FileInfo sizeGe := ⟨fun _ _ _ h1 h2 => le_trans h2 h1⟩

/-- Embeds `files.sort_by(...)` (main.rs:128) and the view's re-sort (main.rs:256):
a stable sort, descending by `size_mb`, modelled as insertion sort. -/
def sortFilesDesc (l : List FileInfo) : List FileInfo := l.insertionSort sizeGe

/-- One enumerated volume as the scan thread sees it (main.rs:103-125): the
OS-reported byte capacities plus, for the walk of its mount point, the list of
(path, byte length) pairs of the entries that stat successfully as regular
files.  The parallel walk delivers them in an arbitrary order; the list fixes
one such order. -/
structure VolumeInput where
  name : String
  totalBytes : Nat
  availBytes : Nat
  files : List (String × Nat)
  deriving DecidableEq

/-- Embeds `disk.total_space() as f64 / 1_073_741_824.0` (main.rs:104). -/
def totalSpaceGiB (v : VolumeInput) : ℚ := (v.totalBytes : ℚ) / 1073741824

/-- Embeds `(disk.total_space() - disk.available_space()) as f64 / 1_073_741_824.0`
(main.rs:105); available never exceeds total on a real volume. -/
def usedSpaceGiB (v : VolumeInput) : ℚ :=
  ((v.totalBytes - v.availBytes : Nat) : ℚ) / 1073741824

/-- The collector closure (main.rs:114-125): every entry that stats
successfully as a regular file contributes one `FileInfo` with
`size_mb = len / 1_048_576`. -/
def collectFiles (fs : List (String × Nat)) : List FileInfo :=
  fs.map fun pb => { path := pb.1, size_mb := (pb.2 : ℚ) / 1048576 }

/-- The body of the scan loop for a qualifying volume (main.rs:110-135):
walk and collect, sort descending, build the report. -/
def volumeReport (v : VolumeInput) : DiskInfo :=
  { name := v.name
    total_space := totalSpaceGiB v
    used_space := usedSpaceGiB v
    files := sortFilesDesc (collectFiles v.files) }

/-- The scan loop (main.rs:103-137): one report is pushed per volume whose
`total_space` is positive; other volumes are skipped (their tree is not
walked, nothing is pushed, no error is raised). -/
def scanDisks (vols : List VolumeInput) : List DiskInfo :=
  vols.filterMap fun v =>
    if 0 < totalSpaceGiB v then some (volumeReport v) else none

/-- The scan thread tail (main.rs:139-146): an empty report list is sent as
the fixed error string, otherwise the list and the elapsed duration are sent
intact. -/
def performScan (vols : List VolumeInput) (duration : ℚ) :
    Except String (List DiskInfo × ℚ) :=
  if (scanDisks vols).isEmpty then .error "Failed to retrieve disk information"
  else .ok (scanDisks vols, duration)

/-- A model of `f64` as either NaN or a finite value; infinities do not arise
in this program (sizes are quotients of byte counts by positive constants). -/
inductive F64 where
  | nan : F64
  | fin (q : ℚ) : F64
  deriving DecidableEq

/-- Embeds `f64::partial_cmp`: undefined (`none`) exactly when a NaN is involved. -/
def f64Cmp : F64 → F64 → Option Ordering
  | .fin a, .fin b => some (compare a b)
  | _, _ => none

/-- Embeds `metadata.len() as f64 / 1_048_576.0` (main.rs:120) in the `F64` model. -/
def sizeMbF (bytes : Nat) : F64 := .fin ((bytes : ℚ) / 1048576)

/-- The sizes flowing into the sort at main.rs:128: one per collected file. -/
def collectSizes (fs : List (String × Nat)) : List F64 :=
  fs.map fun pb => sizeMbF pb.2

/-- The filter predicate of the view (main.rs:248-251): literal suffix test
on the path against the type filter, literal substring test against the name
filter, each bypassed when its text is empty, combined with logical and. -/
def matchesFilter (tyF nmF : String) (f : FileInfo) : Bool :=
  ((tyF == "") || decide (tyF.data <:+ f.path.data)) &&
  ((nmF == "") || decide (nmF.data <:+: f.path.data))

/-- Embeds `matching_files` (main.rs:245-253): filter the volume's files. -/
def matchingFiles (tyF nmF : String) (files : List FileInfo) : List FileInfo :=
  files.filter (matchesFilter tyF nmF)

/-- The re-sort and truncation of the view (main.rs:256-257): sort the
filtered list descending by size, keep the top 5. -/
def viewFiles (tyF nmF : String) (files : List FileInfo) : List FileInfo :=
  (sortFilesDesc (matchingFiles tyF nmF files)).take 5

/-- The unit derivation of the view (main.rs:261-265). -/
def displayEntry (f : FileInfo) : ℚ × String :=
  if 1000 ≤ f.size_mb then (f.size_mb / 1024, "GB") else (f.size_mb, "MB")

/-- The opaque pieces of serde_json's text output: the rendering of a JSON
string literal (quotes and escapes) and of a finite f64.  No claim depends on
them, so they are parameters of the serializer model. -/
structure JsonFmt where
  str : String → String
  num : ℚ → String

/-- serde_json's pretty array layout: an empty array prints as the bare
bracket pair, otherwise one element per line with the closing bracket at the
parent indent. -/
def jsonArrStr (ind : String) (elems : List String) : String :=
  if elems.isEmpty then "[]"
  else "[\n" ++ String.intercalate ",\n" elems ++ "\n" ++ ind ++ "]"

/-- One `FileInfo` as a pretty JSON object at indent `ind`. -/
def jsonFileObj (jf : JsonFmt) (ind : String) (f : FileInfo) : String :=
  ind ++ "\x7b\n" ++
  ind ++ "  " ++ jf.str "path" ++ ": " ++ jf.str f.path ++ ",\n" ++
  ind ++ "  " ++ jf.str "size_mb" ++ ": " ++ jf.num f.size_mb ++ "\n" ++
  ind ++ "\x7d"

/-- One `DiskInfo` as a pretty JSON object at indent `ind`, fields in the
declaration order serde serializes (main.rs:21-27). -/
def jsonDiskObj (jf : JsonFmt) (ind : String) (d : DiskInfo) : String :=
  ind ++ "\x7b\n" ++
  ind ++ "  " ++ jf.str "name" ++ ": " ++ jf.str d.name ++ ",\n" ++
  ind ++ "  " ++ jf.str "total_space" ++ ": " ++ jf.num d.total_space ++ ",\n" ++
  ind ++ "  " ++ jf.str "used_space" ++ ": " ++ jf.num d.used_space ++ ",\n" ++
  ind ++ "  " ++ jf.str "files" ++ ": " ++
    jsonArrStr (ind ++ "  ") (d.files.map (jsonFileObj jf (ind ++ "    "))) ++ "\n" ++
  ind ++ "\x7d"

/-- Embeds `export_to_json` (main.rs:341-344): the bytes written to
`disk_usage.json` for a given report. -/
def exportJsonStr (jf : JsonFmt) (disks : List DiskInfo) : String :=
  jsonArrStr "" (disks.map (jsonDiskObj jf "  "))

/-- The opaque pieces of the CSV output: the csv crate's encoding of one
field (quoting only when necessary) and Rust's 2-decimal float formatting. -/
structure CsvFmt where
  field : String → String
  fix2 : ℚ → String

/-- One CSV record for a (disk, file) pair (main.rs:350-357): six fields
joined by commas, terminated by a newline, in the order written there. -/
def csvRow (cf : CsvFmt) (d : DiskInfo) (f : FileInfo) : String :=
  String.intercalate ","
    [cf.field d.name,
     cf.field (cf.fix2 d.total_space),
     cf.field (cf.fix2 d.used_space),
     cf.field f.path,
     cf.field (cf.fix2 (if 1000 ≤ f.size_mb then f.size_mb / 1024 else f.size_mb)),
     cf.field (if 1000 ≤ f.size_mb then "GB" else "MB")] ++ "\n"

/-- Embeds `export_to_csv` (main.rs:346-361): the bytes written to `disk_usage.csv`
for a given report: one record per file, no header row. -/
def exportCsvStr (cf : CsvFmt) (disks : List DiskInfo) : String :=
  String.join (disks.map fun d => String.join (d.files.map (csvRow cf d)))

/-- The mutable state of `DiskVisualizer` (main.rs:35-44); the elapsed-time
`Duration` is whole seconds, the scan counter a plain natural (its atomic
increments happen in the background thread, outside `update`). -/
structure AppState where
  disks : List DiskInfo
  scanning : Bool
  error_message : Option String
  scan_duration : Option ℚ
  scan_count : Nat
  file_type_filter : String
  file_name_filter : String
  elapsed_time : Nat
  deriving DecidableEq

/-- The `Message` enum (main.rs:46-59), with Rust `Result` as `Except`. -/
inductive Msg where
  | scan
  | stopScan
  | scanned (r : Except String (List DiskInfo × ℚ))
  | refresh
  | fileTypeFilterChanged (s : String)
  | fileNameFilterChanged (s : String)
  | exportAsJson
  | exportAsCsv
  | exportCompleted (r : Except String Unit)
  | done
  | tick

/-- The commands `update` returns, abstracted: the spawned scan eventually
delivers a `Msg.scanned`; the export commands carry the cloned `disks` the
exporters receive; `Refresh` re-issues `Msg.scan`; `Done` exits. -/
inductive Cmd where
  | none
  | scanCmd
  | refreshCmd
  | exportJsonCmd (disks : List DiskInfo)
  | exportCsvCmd (disks : List DiskInfo)
  | exitCmd

/-- Embeds `Result::err()` as used at main.rs:186. -/
def errOf : Except String Unit → Option String
  | .ok _ => none
  | .error e => some e

/-- Embeds `DiskVisualizer::update` (main.rs:87-205): the complete message handler
over `AppState`, one arm per `Message` variant. -/
def update (s : AppState) : Msg → AppState × Cmd
  | .scan =>
      ({ s with scanning := true, elapsed_time := 0,
                error_message := none, scan_duration := none }, .scanCmd)
  | .stopScan => ({ s with scanning := false }, .none)
  | .scanned r =>
      match r with
      | .ok (disks, duration) =>
          ({ s with scanning := false, disks := disks,
                    scan_duration := some duration }, .none)
      | .error e =>
          ({ s with scanning := false, error_message := some e }, .none)
  | .tick =>
      (if s.scanning then { s with elapsed_time := s.elapsed_time + 1 } else s,
       .none)
  | .exportAsJson => (s, .exportJsonCmd s.disks)
  | .exportAsCsv => (s, .exportCsvCmd s.disks)
  | .exportCompleted r => ({ s with error_message := errOf r }, .none)
  | .done => (s, .exitCmd)
  | .refresh => ({ s with scan_duration := none }, .refreshCmd)
  | .fileTypeFilterChanged t => ({ s with file_type_filter := t }, .none)
  | .fileNameFilterChanged t => ({ s with file_name_filter := t }, .none)

/-- Embeds `DiskVisualizer::new` (main.rs:67-81). -/
def initState : AppState :=
  { disks := [], scanning := false, error_message := none, scan_duration := none,
    scan_count := 0, file_type_filter := "", file_name_filter := "",
    elapsed_time := 0 }

/-- The bytes a JSON export command writes, when the command is one. -/
def jsonCmdOutput (jf : JsonFmt) : Cmd → Option String
  | .exportJsonCmd d => some (exportJsonStr jf d)
  | _ => Option.none

/-- The bytes a CSV export command writes, when the command is one. -/
def csvCmdOutput (cf : CsvFmt) : Cmd → Option String
  | .exportCsvCmd d => some (exportCsvStr cf d)
  | _ => Option.none

/-- A state with the two filter text fields replaced (main.rs:196-203 keep
them as the only state the filter inputs touch). -/
def withFilters (s : AppState) (t n : String) : AppState :=
  { s with file_type_filter := t, file_name_filter := n }

/-- A sample report used in concrete witnesses. -/
def demoDisk : DiskInfo := { name := "d0", total_space := 1, used_space := 1, files := [] }

/-- A sample enumerated volume: 1 GiB capacity, two regular files of 1 MiB
and 2 MiB. -/
def demoVol : VolumeInput :=
  { name := "d0", totalBytes := 1073741824, availBytes := 0,
    files := [("a", 1048576), ("b", 2097152)] }

/-- Sample files mirroring end-to-end scenario A (2000 MB, 500 MB, 10 MB). -/
def demoFileA : FileInfo := { path := "a.txt", size_mb := 2000 }

def demoFileB : FileInfo := { path := "report.txt", size_mb := 500 }

def demoFileC : FileInfo := { path := "c.bin", size_mb := 10 }

def demoFiles : List FileInfo := [demoFileA, demoFileB, demoFileC]

theorem totalSpace_pos_iff (v : VolumeInput) :
    0 < totalSpaceGiB v ↔ 0 < v.totalBytes := by
  unfold totalSpaceGiB
  rw [lt_div_iff₀ (by norm_num : (0:ℚ) < 1073741824)]
  simp [Nat.cast_pos]

theorem demoVol_pos : 0 < totalSpaceGiB demoVol := by
  norm_num [totalSpaceGiB, demoVol]

theorem collectFiles_demo :
    collectFiles demoVol.files =
      [{ path := "a", size_mb := 1 }, { path := "b", size_mb := 2 }] := by
  norm_num [collectFiles, demoVol]

theorem volumeReport_demo_files :
    (volumeReport demoVol).files =
      [{ path := "b", size_mb := 2 }, { path := "a", size_mb := 1 }] := by
  rw [volumeReport]
  rw [collectFiles_demo]
  norm_num [sortFilesDesc, List.insertionSort, List.orderedInsert, sizeGe]

theorem scanDisks_demo : scanDisks [demoVol] = [volumeReport demoVol] := by
  simp [scanDisks, demoVol_pos]

/-- The view predicate in propositional form: the empty-text bypasses change
nothing, because the empty character list is a suffix and an infix of every
path. -/
theorem matchesFilter_iff (tyF nmF : String) (f : FileInfo) :
    matchesFilter tyF nmF f = true ↔
      tyF.data <:+ f.path.data ∧ nmF.data <:+: f.path.data := by
  unfold matchesFilter
  rw [Bool.and_eq_true, Bool.or_eq_true, Bool.or_eq_true]
  simp only [beq_iff_eq, decide_eq_true_eq]
  constructor
  · rintro ⟨h1, h2⟩
    refine ⟨?_, ?_⟩
    · rcases h1 with h | h
      · subst h; exact List.nil_suffix
      · exact h
    · rcases h2 with h | h
      · subst h; exact List.nil_infix
      · exact h
  · rintro ⟨h1, h2⟩
    exact ⟨Or.inr h1, Or.inr h2⟩

/-- C1 counterexample: start scanning, process Stop, then let the in-flight
scan deliver a successful result — the result is applied, not discarded: the
stored report becomes the delivered list and the duration is set. -/
theorem stop_then_scanned_applies_result :
    (update ((update { initState with scanning := true } Msg.stopScan).1)
        (Msg.scanned (.ok ([demoDisk], 5)))).1.disks = [demoDisk] ∧
    (update ((update { initState with scanning := true } Msg.stopScan).1)
        (Msg.scanned (.ok ([demoDisk], 5)))).1.scan_duration = some 5 :=
  ⟨rfl, rfl⟩

/-- C1 (amended): a Stop request clears the visible scanning flag
immediately, but when the in-flight scan later delivers its result the
`Scanned` handler applies it unconditionally: a success overwrites the stored
report and duration, a failure sets the error message. -/
theorem stopScan_clears_flag_result_still_applied (s : AppState)
    (d : List DiskInfo) (dur : ℚ) (e : String) :
    (update s Msg.stopScan).1.scanning = false ∧
    (update (update s Msg.stopScan).1 (Msg.scanned (.ok (d, dur)))).1.disks = d ∧
    (update (update s Msg.stopScan).1
        (Msg.scanned (.ok (d, dur)))).1.scan_duration = some dur ∧
    (update (update s Msg.stopScan).1
        (Msg.scanned (.error e))).1.error_message = some e :=
  ⟨rfl, rfl, rfl, rfl⟩

/-- C2: a scan whose report list is empty terminates with exactly the fixed
error message, an error result never touches the stored report, and a scan
with a non-empty report list terminates successfully with that list. -/
theorem scan_empty_error_nonempty_ok (vols : List VolumeInput) (dur : ℚ) :
    (scanDisks vols = [] →
      performScan vols dur = .error "Failed to retrieve disk information") ∧
    (scanDisks vols ≠ [] →
      performScan vols dur = .ok (scanDisks vols, dur)) ∧
    (∀ e s, (update s (Msg.scanned (.error e))).1.disks = s.disks) := by
  refine ⟨fun h => ?_, fun h => ?_, fun e s => rfl⟩
  · unfold performScan
    rw [if_pos (by simp [h])]
  · unfold performScan
    rw [if_neg (by simpa using h)]

theorem scan_empty_error_nonempty_ok_witness :
    performScan [] 0 = .error "Failed to retrieve disk information" ∧
    performScan [demoVol] 2 = .ok (scanDisks [demoVol], 2) :=
  ⟨(scan_empty_error_nonempty_ok [] 0).1 rfl,
   (scan_empty_error_nonempty_ok [demoVol] 2).2.1
     (by rw [scanDisks_demo]; exact List.cons_ne_nil _ _)⟩

/-- C3: in every report of every scan the file list is non-increasing in
`size_mb` at all adjacent indices. -/
theorem report_files_sorted_desc (vols : List VolumeInput) (d : DiskInfo)
    (hd : d ∈ scanDisks vols) (i : Nat) (hi : i + 1 < d.files.length) :
    (d.files.getD (i + 1) default).size_mb ≤ (d.files.getD i default).size_mb := by
  rcases List.mem_filterMap.mp hd with ⟨v, _, hvd⟩
  by_cases hpos : 0 < totalSpaceGiB v
  · rw [if_pos hpos] at hvd
    cases hvd
    have hs : List.Sorted sizeGe (volumeReport v).files :=
      List.sorted_insertionSort sizeGe (collectFiles v.files)
    have h1 : i < (volumeReport v).files.length := Nat.lt_of_succ_lt hi
    rw [List.getD_eq_getElem _ _ hi, List.getD_eq_getElem _ _ h1]
    exact List.pairwise_iff_getElem.mp hs i (i + 1) h1 hi (Nat.lt_succ_self i)
  · rw [if_neg hpos] at hvd
    cases hvd

theorem report_files_sorted_desc_witness :
    ((volumeReport demoVol).files.getD 1 default).size_mb ≤
      ((volumeReport demoVol).files.getD 0 default).size_mb :=
  report_files_sorted_desc [demoVol] (volumeReport demoVol)
    (by rw [scanDisks_demo]; exact List.mem_singleton.mpr rfl) 0
    (by rw [volumeReport_demo_files]; norm_num)

/-- C4: the scan report list is exactly one report per enumerated volume with
positive byte capacity, in enumeration order; volumes with zero capacity
contribute nothing and raise nothing. -/
theorem scan_skips_nonpositive (vols : List VolumeInput) :
    scanDisks vols =
      (vols.filter fun v => decide (0 < v.totalBytes)).map volumeReport ∧
    (scanDisks vols).length =
      (vols.filter fun v => decide (0 < v.totalBytes)).length := by
  have h : scanDisks vols =
      (vols.filter fun v => decide (0 < v.totalBytes)).map volumeReport := by
    induction vols with
    | nil => rfl
    | cons v vs ih =>
        simp only [scanDisks] at ih ⊢
        rw [List.filterMap_cons, List.filter_cons]
        by_cases hv : 0 < v.totalBytes
        · rw [if_pos ((totalSpace_pos_iff v).mpr hv), decide_eq_true hv,
            if_pos rfl, List.map_cons, ih]
        · rw [if_neg (fun hc => hv ((totalSpace_pos_iff v).mp hc)),
            decide_eq_false hv, if_neg Bool.false_ne_true, ih]
  exact ⟨h, by rw [h, List.length_map]⟩

/-- C5: the filtered view keeps exactly the entries passing the suffix test
against the extension text and the infix test against the name text (empty
texts pass everything); it is a sublist of the volume's files, and with both
texts empty it is the whole original list, whose re-sort is therefore a
permutation of the full file set. -/
theorem filter_narrowing (tyF nmF : String) (files : List FileInfo) :
    List.Sublist (matchingFiles tyF nmF files) files ∧
    (∀ f, f ∈ matchingFiles tyF nmF files ↔
      f ∈ files ∧ tyF.data <:+ f.path.data ∧ nmF.data <:+: f.path.data) ∧
    matchingFiles "" "" files = files ∧
    List.Perm (sortFilesDesc (matchingFiles "" "" files)) files := by
  have hempty : matchingFiles "" "" files = files :=
    List.filter_eq_self.mpr fun f _ =>
      (matchesFilter_iff "" "" f).mpr ⟨List.nil_suffix, List.nil_infix⟩
  refine ⟨List.filter_sublist files, fun f => ?_, hempty, ?_⟩
  · rw [matchingFiles, List.mem_filter, matchesFilter_iff]
  · rw [hempty]
    exact List.perm_insertionSort sizeGe files

theorem filter_narrowing_witness :
    demoFileB ∈ matchingFiles ".txt" "rep" demoFiles :=
  ((filter_narrowing ".txt" "rep" demoFiles).2.1 demoFileB).mpr (by decide)

/-- C6: the view keeps at most 5 entries, namely a prefix of the filtered
list re-sorted descending by size, and derives the unit per entry: size at
least 1000 displays as the size divided by 1024 with unit GB, otherwise the
size unchanged with unit MB; a 2000 MB entry displays as 125/64 = 1.953125
GB (printed as 1.95 with 2-decimal formatting). -/
theorem view_top5_and_units (tyF nmF : String) (files : List FileInfo)
    (f : FileInfo) :
    (viewFiles tyF nmF files).length ≤ 5 ∧
    viewFiles tyF nmF files <+: sortFilesDesc (matchingFiles tyF nmF files) ∧
    List.Sorted sizeGe (sortFilesDesc (matchingFiles tyF nmF files)) ∧
    (1000 ≤ f.size_mb → displayEntry f = (f.size_mb / 1024, "GB")) ∧
    (f.size_mb < 1000 → displayEntry f = (f.size_mb, "MB")) ∧
    displayEntry { path := f.path, size_mb := 2000 } = (125 / 64, "GB") ∧
    (125 / 64 : ℚ) = 1.953125 := by
  refine ⟨List.length_take_le 5 _, List.take_prefix 5 _,
    List.sorted_insertionSort sizeGe _, fun h => ?_, fun h => ?_, ?_, by norm_num⟩
  · rw [displayEntry, if_pos h]
  · rw [displayEntry, if_neg (not_le.mpr h)]
  · rw [displayEntry, if_pos (by norm_num)]
    norm_num

theorem view_top5_and_units_witness :
    displayEntry demoFileA = (demoFileA.size_mb / 1024, "GB") ∧
    displayEntry demoFileB = (demoFileB.size_mb, "MB") ∧
    viewFiles "" "" demoFiles = demoFiles :=
  ⟨(view_top5_and_units "" "" demoFiles demoFileA).2.2.2.1 (by decide),
   (view_top5_and_units "" "" demoFiles demoFileB).2.2.2.2.1 (by decide),
   by decide⟩

/-- C7: export output depends on the stored report alone: states that share
`disks` yield identical export bytes whatever their filter texts, exporting
leaves the state unchanged, and a repeated export yields the same bytes. -/
theorem export_independent_of_filters (jf : JsonFmt) (cf : CsvFmt)
    (s : AppState) (t1 n1 t2 n2 : String) :
    jsonCmdOutput jf (update (withFilters s t1 n1) Msg.exportAsJson).2 =
      some (exportJsonStr jf s.disks) ∧
    jsonCmdOutput jf (update (withFilters s t2 n2) Msg.exportAsJson).2 =
      some (exportJsonStr jf s.disks) ∧
    csvCmdOutput cf (update (withFilters s t1 n1) Msg.exportAsCsv).2 =
      some (exportCsvStr cf s.disks) ∧
    csvCmdOutput cf (update (withFilters s t2 n2) Msg.exportAsCsv).2 =
      some (exportCsvStr cf s.disks) ∧
    (update s Msg.exportAsJson).1 = s ∧ (update s Msg.exportAsCsv).1 = s ∧
    jsonCmdOutput jf (update (update s Msg.exportAsJson).1 Msg.exportAsJson).2 =
      jsonCmdOutput jf (update s Msg.exportAsJson).2 ∧
    csvCmdOutput cf (update (update s Msg.exportAsCsv).1 Msg.exportAsCsv).2 =
      csvCmdOutput cf (update s Msg.exportAsCsv).2 :=
  ⟨rfl, rfl, rfl, rfl, rfl, rfl, rfl, rfl⟩

/-- C8: every size the collector feeds into the sort is a finite,
non-negative f64 (never NaN), so the descending-sort comparison of any two
collected sizes is defined and the unwrap in the comparator cannot fail. -/
theorem collector_sizes_cmp_defined (fs : List (String × Nat)) (x y : F64)
    (hx : x ∈ collectSizes fs) (hy : y ∈ collectSizes fs) :
    (∃ q, x = F64.fin q ∧ 0 ≤ q) ∧ (∃ o, f64Cmp y x = some o) := by
  rcases List.mem_map.mp hx with ⟨pbx, _, hpx⟩
  rcases List.mem_map.mp hy with ⟨pby, _, hpy⟩
  subst hpx; subst hpy
  refine ⟨⟨(pbx.2 : ℚ) / 1048576, rfl, by positivity⟩, ⟨_, rfl⟩⟩

theorem collector_sizes_cmp_defined_witness :
    (∃ q, sizeMbF 1048576 = F64.fin q ∧ 0 ≤ q) ∧
    (∃ o, f64Cmp (sizeMbF 2097152) (sizeMbF 1048576) = some o) :=
  collector_sizes_cmp_defined [("a", 1048576), ("b", 2097152)]
    (sizeMbF 1048576) (sizeMbF 2097152) (by simp [collectSizes])
    (by simp [collectSizes])

/-- C9: with no prior scan the stored report is empty, and exporting it
writes the two-character JSON text of an empty array and an empty CSV byte
string (no rows, no header), whatever the opaque renderings are. -/
theorem export_empty_report (jf : JsonFmt) (cf : CsvFmt) :
    initState.disks = [] ∧
    (update initState Msg.exportAsJson).2 = Cmd.exportJsonCmd [] ∧
    (update initState Msg.exportAsCsv).2 = Cmd.exportCsvCmd [] ∧
    exportJsonStr jf [] = "[]" ∧
    exportCsvStr cf [] = "" :=
  ⟨rfl, rfl, rfl, rfl, rfl⟩

/-- C10: completing an export stores exactly the export result's error in the
message slot: the failure message on failure, `none` on success — so a
successful export clears any previously displayed error, including one left
by an earlier failed scan. -/
theorem exportCompleted_sets_error (s : AppState) (m prev : String) :
    (update s (Msg.exportCompleted (.ok ()))).1.error_message = none ∧
    (update s (Msg.exportCompleted (.error m))).1.error_message = some m ∧
    (update { s with error_message := some prev }
        (Msg.exportCompleted (.ok ()))).1.error_message = none ∧
    (∀ r, (update s (Msg.exportCompleted r)).1 =
      { s with error_message := errOf r }) :=
  ⟨rfl, rfl, rfl, fun _ => rfl⟩

end DiskViz
